import Mathlib

/-!
Verification of the geopolitical short-form-content study pipeline.

This file is a shallow embedding of the parts of the repository that the
statistical and session-management claims are about:

* `analysis.py` — the chi-square inference engine (`run_chi_square_analysis`,
  `run_analysis`), the conflict tally (`get_conflict_counts`, `ACLED_SCORES`)
  and the home-feed loader (`load_home_feed_data`);
* `check_progress.py` — the training-data loader (`load_all_training_data`);
* `llm.py` — the classifier adapter (`is_conflict_related`,
  `classify_conflict_region`);
* `experiment.py` / `home.py` — the resumable session walker
  (`view_shorts`, `run_capture_session`), the training orchestrator
  (`run_full_experiment`) and session-file naming and ordering;
* `config.py` — the counterbalanced plan (`ACCOUNT_COUNTRY_ORDER`).

Python floats are modelled as exact rationals `ℚ`; a float value that the
source computes as NaN or ±inf (division by zero in numpy) is modelled as
`none : Option ℚ`.  Python exceptions are modelled with `Except`.
-/

/-- The five conflict regions of `config.ConflictCountry`
(`config.py` line 12). -/
inductive Country where
  | Palestine
  | Myanmar
  | Ukraine
  | Mexico
  | Brazil
deriving DecidableEq, Repr, Fintype

/-- ACLED severity scores, `analysis.py` lines 27-32.  Note: only four of
the five configured regions appear here (no Brazil). -/
def ACLED_SCORES : List (Country × ℚ) :=
  [(Country.Palestine, 2571/1000),
   (Country.Myanmar, 1900/1000),
   (Country.Ukraine, 1543/1000),
   (Country.Mexico, 1045/1000)]

/-- One term `(o - e)^2 / e` of the chi-square sum as computed by
`scipy.stats.chisquare`; a zero expected count makes the float term
non-finite (NaN or inf), modelled as `none`. -/
def chiSqTerm (o e : ℚ) : Option ℚ :=
  if e = 0 then none else some ((o - e) ^ 2 / e)

/-- Sum of float terms: any non-finite term poisons the whole sum. -/
def optSum : List (Option ℚ) → Option ℚ
  | [] => some 0
  | x :: xs => do
      let a ← x
      let s ← optSum xs
      pure (a + s)

/-- The dictionary returned by `run_chi_square_analysis`
(`analysis.py` lines 94-101).  The p-value (a transcendental chi-square
survival function) and the standardized residuals (which go through a
float square root) are not carried in this rational-valued record; the
residual flagging logic is modelled separately below. -/
structure InferenceResult where
  observed : List (Country × ℚ)
  expected : List (Country × ℚ)
  chi2 : Option ℚ
  df : ℕ
deriving DecidableEq, Repr

deriving instance DecidableEq for Except

/-- `run_chi_square_analysis` (`analysis.py` lines 69-101), with the
module-level severity constant `ACLED_SCORES` generalized to a parameter
`scores` — the `evaluate(observed, severity)` contract of the spec; the
source instantiates `scores` with `ACLED_SCORES` (see
`run_chi_square_analysis` below).  The module-level normalization
`ACLED_NORMALIZED = {k: v / ACLED_TOTAL}` is a Python float division, which
raises `ZeroDivisionError` when the score total is zero (`Except.error`);
everything after it is numpy arithmetic, which silently yields non-finite
values on division by zero (`chi2 = none`). -/
def run_chi_square_analysis_with (scores : List (Country × ℚ))
    (observed_counts : Country → ℕ) : Except Unit InferenceResult :=
  let countries : List Country := scores.map Prod.fst
  let observed : List ℚ := countries.map (fun c => (observed_counts c : ℚ))
  let total_observed : ℚ := observed.sum
  let score_total : ℚ := (scores.map Prod.snd).sum
  if score_total = 0 then Except.error ()
  else
    let expected : List ℚ := scores.map (fun p => p.2 / score_total * total_observed)
    let chi2 : Option ℚ := optSum ((observed.zip expected).map (fun p => chiSqTerm p.1 p.2))
    Except.ok
      { observed := countries.zip observed
        expected := countries.zip expected
        chi2 := chi2
        df := countries.length - 1 }

/-- `run_chi_square_analysis` exactly as in the source: the severity
weighting is the module constant `ACLED_SCORES`. -/
def run_chi_square_analysis (observed_counts : Country → ℕ) : Except Unit InferenceResult :=
  run_chi_square_analysis_with ACLED_SCORES observed_counts

/-- Uniform (equal) severity weights over the four studied regions, the
hypothesis of the chi-square correctness test vector. -/
def uniformScores : List (Country × ℚ) :=
  [(Country.Palestine, 1), (Country.Myanmar, 1),
   (Country.Ukraine, 1), (Country.Mexico, 1)]

/-- Observed counts {A:50, B:30, C:15, D:5} of the chi-square test vector. -/
def obsC1 : Country → ℕ
  | Country.Palestine => 50
  | Country.Myanmar => 30
  | Country.Ukraine => 15
  | Country.Mexico => 5
  | Country.Brazil => 0

/-- `counts[country] += 1` on the tally dictionary of `get_conflict_counts`:
the increment happens only when the key is already present (the source
guards with `country in counts`); a country outside the dictionary leaves
it unchanged. -/
def incrCount : List (Country × ℕ) → Country → List (Country × ℕ)
  | [], _ => []
  | (c, n) :: rest, c2 =>
      if c = c2 then (c, n + 1) :: rest else (c, n) :: incrCount rest c2

/-- `get_conflict_counts` (`analysis.py` lines 57-66): a tally dictionary
initialized with the keys of `ACLED_SCORES` at zero; each short's
`related_country` is counted only when truthy (`some`) and among those
keys. -/
def get_conflict_counts (shorts : List (Option Country)) : List (Country × ℕ) :=
  shorts.foldl
    (fun counts s =>
      match s with
      | some c2 => incrCount counts c2
      | none => counts)
    (ACLED_SCORES.map (fun p => (p.1, 0)))

/-- `sum(observed_counts.values())` — the `n_conflict` total of
`run_analysis` (`analysis.py` line 331). -/
def nConflict (counts : List (Country × ℕ)) : ℕ :=
  (counts.map Prod.snd).sum

/-- Dictionary access `observed_counts[c]` (the tally always carries the
four `ACLED_SCORES` keys, so the default is never used on the real call
path). -/
def countOf (counts : List (Country × ℕ)) (c : Country) : ℕ :=
  ((counts.find? (fun p => p.1 == c)).map Prod.snd).getD 0

/-- `run_analysis` (`analysis.py` lines 307-357), data flow only (print
and plot calls dropped): sessions are loaded per profile, all shorts are
combined, tallied, and the chi-square test runs only when the combined
data is non-empty and the conflict tally is non-zero; otherwise the
function prints an error and returns `None` before computing. -/
def run_analysis (data : List (String × List (Option Country))) : Option InferenceResult :=
  if data = [] then none
  else
    let all_shorts := (data.map Prod.snd).flatten
    let observed_counts := get_conflict_counts all_shorts
    if nConflict observed_counts = 0 then none
    else (run_chi_square_analysis (fun c => countOf observed_counts c)).toOption

/-- The `conflict_map.get(result, None)` lookup of
`classify_conflict_region` (`llm.py` lines 49-57). -/
def conflictMap (s : String) : Option Country :=
  if s = "PALESTINE" then some Country.Palestine
  else if s = "MYANMAR" then some Country.Myanmar
  else if s = "UKRAINE" then some Country.Ukraine
  else if s = "MEXICO" then some Country.Mexico
  else if s = "BRAZIL" then some Country.Brazil
  else none

/-- `is_conflict_related` (`llm.py` lines 13-29) as a function of the
classifier's response text (`none` models `response.text is None`).
`if not response.text: raise Exception(...)` fires on a missing or empty
string; otherwise the stripped, upper-cased text is compared with "YES". -/
def is_conflict_related (responseText : Option String) : Except String Bool :=
  match responseText with
  | none => Except.error "No response from Gemini API"
  | some t =>
      if t = "" then Except.error "No response from Gemini API"
      else Except.ok (t.trim.toUpper == "YES")

/-- `classify_conflict_region` (`llm.py` lines 32-57) as a function of the
classifier's response text: same empty-response exception, then the
stripped, upper-cased text is looked up in `conflict_map` with default
`None`. -/
def classify_conflict_region (responseText : Option String) :
    Except String (Option Country) :=
  match responseText with
  | none => Except.error "No response from Gemini API"
  | some t =>
      if t = "" then Except.error "No response from Gemini API"
      else Except.ok (conflictMap t.trim.toUpper)

/-- The per-region significance flag printed by `print_results`
(`analysis.py` lines 131-133), as a function of the standardized-residual
value read from the result dictionary:
`"**" if abs(resid) > 2 else ("*" if abs(resid) > 1.96 else "")`.
The legend printed by the same function (line 137) documents these flags
as `* |residual| > 1.96 (p < 0.05), ** |residual| > 2.58 (p < 0.01)`. -/
def residFlag (resid : ℚ) : String :=
  if |resid| > 2 then "**" else if |resid| > 1.96 then "*" else ""

/-- Over-representation test of `print_results` (`analysis.py` line 171):
`resid > 1.96`. -/
def overRepresented (resid : ℚ) : Bool :=
  resid > 1.96

/-- Under-representation test of `print_results` (`analysis.py` line 173):
`resid < -1.96`. -/
def underRepresented (resid : ℚ) : Bool :=
  resid < -1.96

/-- Standardized residual `(observed - expected) / sqrt(expected)`
(`analysis.py` line 92), over the reals because of the square root. -/
noncomputable def standardizedResidual (o e : ℝ) : ℝ :=
  (o - e) / Real.sqrt e

/-- A session file as the loaders see it: a filename stem and either the
parsed JSON record list or a `json.JSONDecodeError` (malformed/truncated
file), modelled as `Except.error ()`. -/
structure SessionFile (α : Type) where
  stem : String
  content : Except Unit (List α)

/-- `data_by_profile[key].extend(session_data)` on a `defaultdict(list)`:
append to the existing entry, or create a new one (Python dicts keep
insertion order, so a new key goes last). -/
def extendKey {κ α : Type} [DecidableEq κ] :
    List (κ × List α) → κ → List α → List (κ × List α)
  | [], k, recs => [(k, recs)]
  | (k2, rs) :: rest, k, recs =>
      if k2 = k then (k2, rs ++ recs) :: rest
      else (k2, rs) :: extendKey rest k recs

/-- Python's `str.split(sep)` on character lists (non-overlapping,
left-to-right), by structural recursion on a character budget so that the
kernel can evaluate concrete instances; the budget `length + 1` always
suffices because every step consumes at least one character. -/
def splitOnGo (sep : List Char) : ℕ → List Char → List Char → List (List Char)
  | 0, l, acc => [acc.reverse ++ l]
  | _ + 1, [], acc => [acc.reverse]
  | fuel + 1, c :: rest, acc =>
      if sep.isPrefixOf (c :: rest) then
        acc.reverse :: splitOnGo sep fuel ((c :: rest).drop sep.length) []
      else
        splitOnGo sep fuel rest (c :: acc)

/-- Python's `str.split(sep)` on strings. -/
def stringSplitOn (s sep : String) : List String :=
  (splitOnGo sep.toList (s.toList.length + 1) s.toList []).map List.asString

/-- `load_home_feed_data` (`analysis.py` lines 39-54): iterate the files
matching `*_home_*.json` (a stem whose split on `"_home_"` has at least
two parts); skip a file whose split does not have exactly two parts;
otherwise `json.load` it — an uncaught `json.JSONDecodeError` propagates
out of the whole loader — and extend the profile's record list. -/
def load_home_feed_data {α : Type} (files : List (SessionFile α)) :
    Except Unit (List (String × List α)) :=
  files.foldlM
    (fun acc file =>
      match stringSplitOn file.stem "_home_" with
      | [profile, _sid] => do
          let sessionData ← file.content
          pure (extendKey acc profile sessionData)
      | _ => pure acc)
    []

/-- Membership of a country name in `config.CONFLICT_KEYWORDS` (whose keys
are the five configured regions). -/
def countryOfString (s : String) : Option Country :=
  if s = "Palestine" then some Country.Palestine
  else if s = "Myanmar" then some Country.Myanmar
  else if s = "Ukraine" then some Country.Ukraine
  else if s = "Mexico" then some Country.Mexico
  else if s = "Brazil" then some Country.Brazil
  else none

/-- Loop body of `load_all_training_data` (`check_progress.py` lines
18-39): skip home-feed files; parse the stem as
`{profile}_{n}_{country}_{session_id}` (at least three `_`-separated
parts, the third a configured country); `json.load` inside a
`try/except json.JSONDecodeError` — a malformed file is skipped with a
warning and the loop continues. -/
def trainingLoadStep {α : Type} (acc : List ((String × String) × List α))
    (file : SessionFile α) : List ((String × String) × List α) :=
  if (stringSplitOn file.stem "_home_").length ≥ 2 then acc
  else
    match stringSplitOn file.stem "_" with
    | p0 :: p1 :: p2 :: _ =>
        if (countryOfString p2).isSome then
          match file.content with
          | Except.ok sessionData => extendKey acc (p0 ++ "_" ++ p1, p2) sessionData
          | Except.error _ => acc
        else acc
    | _ => acc

/-- `load_all_training_data` (`check_progress.py` lines 11-41); the nested
`{profile: {country: [shorts]}}` defaultdict is flattened to an
association list keyed by the (profile, country) pair. -/
def load_all_training_data {α : Type} (files : List (SessionFile α)) :
    List ((String × String) × List α) :=
  files.foldl trainingLoadStep []

/-- The per-item loop of `view_shorts` (`experiment.py` lines 111-129) and
`view_home_shorts` (`home.py` lines 91-109), by number of remaining
iterations: extract the short under the feed cursor, append it to the
session data (the file is rewritten after every append), advance the
cursor.  The feed is a function `ℕ → α` — the stable per-viewer ordering
the resume logic assumes. -/
def viewShortsGo {α : Type} (feed : ℕ → α) : ℕ → ℕ → List α → List α
  | 0, _, data => data
  | n + 1, cursor, data => viewShortsGo feed n (cursor + 1) (data ++ [feed cursor])

/-- `view_shorts(driver, count, …, existing_data)`: the loop runs for
`i in range(len(existing_data), count)`, so `count - len(existing)`
iterations, starting from the browser's current cursor position. -/
def view_shorts {α : Type} (feed : ℕ → α) (cursor : ℕ) (existing : List α)
    (count : ℕ) : List α :=
  viewShortsGo feed (count - existing.length) cursor existing

/-- Record flow of `run_capture_session` (`experiment.py` lines 150-189)
and `run_home_feed_session` (`home.py` lines 124-158): a session resuming
an incomplete record list first swipes past `len(existing_data)` items
(cursor at `existing.length`), then views until `target` records exist; a
fresh session starts at cursor 0 with no records.  Because the walker
persists after every single append, the record list a crash leaves behind
after `k` appends of an interrupted run equals the record list of a
completed run of length `k`. -/
def run_capture_session {α : Type} (feed : ℕ → α)
    (incompleteSession : Option (List α)) (target : ℕ) : List α :=
  match incompleteSession with
  | some existing => view_shorts feed existing.length existing target
  | none => view_shorts feed 0 [] target

/-- Session-store state the training orchestrator reads per country:
`get_session_count_for_country` (complete sessions) and
`get_incomplete_session is not None`. -/
structure OrchestratorState where
  complete : Country → ℕ
  hasIncomplete : Country → Bool

/-- One round of `run_full_experiment` (`experiment.py` lines 247-269):
cycle the account's country order; a country is skipped when
`complete_sessions >= round_num and not has_incomplete`, otherwise one
capture session runs (its effect on the session store is the parameter
`sessionEffect` — an external browser action).  Returns the updated state
and the number of sessions run. -/
def runRound (sessionEffect : OrchestratorState → Country → OrchestratorState)
    (order : List Country) (st : OrchestratorState) (roundNum : ℕ) :
    OrchestratorState × ℕ :=
  order.foldl
    (fun acc c =>
      if roundNum ≤ acc.1.complete c ∧ acc.1.hasIncomplete c = false then acc
      else (sessionEffect acc.1 c, acc.2 + 1))
    (st, 0)

/-- `run_full_experiment` (`experiment.py` lines 212-277), staggered
design: rounds `1 … SESSIONS_PER_COUNTRY`, each cycling the country
order.  Returns the final session-store state and the total number of
capture sessions performed. -/
def run_full_experiment
    (sessionEffect : OrchestratorState → Country → OrchestratorState)
    (order : List Country) (st : OrchestratorState) (rounds : ℕ) :
    OrchestratorState × ℕ :=
  (List.range rounds).foldl
    (fun acc r =>
      let next := runRound sessionEffect order acc.1 (r + 1)
      (next.1, acc.2 + next.2))
    (st, 0)

/-- The effect of one successful capture session on the session store:
the country gains one complete session and loses any incomplete one.
Used only to instantiate the `sessionEffect` parameter in witnesses. -/
def successfulSessionEffect (st : OrchestratorState) (c : Country) :
    OrchestratorState :=
  { complete := fun x => if x = c then st.complete x + 1 else st.complete x
    hasIncomplete := fun x => if x = c then false else st.hasIncomplete x }

/-- Two-digit zero padding of `strftime`. -/
def pad2 (n : ℕ) : String :=
  if n < 10 then "0" ++ toString n else toString n

/-- Session id generation (`experiment.py` lines 158-159, `home.py` lines
132-133): `datetime.now(eastern).strftime("%Y-%m-%d_%I:%M:%S%p")` — a
TWELVE-hour clock (`%I`) with an `AM`/`PM` suffix. -/
def strftimeSessionId (year month day hour minute second : ℕ) : String :=
  toString year ++ "-" ++ pad2 month ++ "-" ++ pad2 day ++ "_" ++
    pad2 (if hour % 12 = 0 then 12 else hour % 12) ++ ":" ++
    pad2 minute ++ ":" ++ pad2 second ++
    (if hour < 12 then "AM" else "PM")

/-- Name of a configured region as it appears in filenames. -/
def regionName : Country → String
  | Country.Palestine => "Palestine"
  | Country.Myanmar => "Myanmar"
  | Country.Ukraine => "Ukraine"
  | Country.Mexico => "Mexico"
  | Country.Brazil => "Brazil"

/-- Session filename `{account_id}_{region}_{session_id}.json`
(`experiment.py` line 24). -/
def sessionFileName (accountId : String) (region : Country)
    (sessionId : String) : String :=
  accountId ++ "_" ++ regionName region ++ "_" ++ sessionId ++ ".json"

/-- `get_session_files_for_country` (`experiment.py` lines 29-33) /
`get_home_session_files` (`home.py` lines 29-33) applied to the glob
matches: `sorted(files)` — plain lexicographic string order on the
filenames. -/
def get_session_files_for_country (files : List String) : List String :=
  List.insertionSort (fun a b => a ≤ b) files

/-- `config.ACCOUNT_COUNTRY_ORDER` (`config.py` lines 220-227), verbatim:
six entries, the extra `"test"` profile carrying the same order as
`"profile_1"`. -/
def ACCOUNT_COUNTRY_ORDER : List (String × List Country) :=
  [("test", [Country.Palestine, Country.Myanmar, Country.Ukraine,
             Country.Mexico, Country.Brazil]),
   ("profile_1", [Country.Palestine, Country.Myanmar, Country.Ukraine,
                  Country.Mexico, Country.Brazil]),
   ("profile_2", [Country.Myanmar, Country.Ukraine, Country.Mexico,
                  Country.Brazil, Country.Palestine]),
   ("profile_3", [Country.Ukraine, Country.Mexico, Country.Brazil,
                  Country.Palestine, Country.Myanmar]),
   ("profile_4", [Country.Mexico, Country.Brazil, Country.Palestine,
                  Country.Myanmar, Country.Ukraine]),
   ("profile_5", [Country.Brazil, Country.Palestine, Country.Myanmar,
                  Country.Ukraine, Country.Mexico])]

/-- Number of profiles of a plan whose region order has region `r` at
ordinal position `pos`. -/
def regionAtPosCount (plan : List (String × List Country)) (pos : ℕ)
    (r : Country) : ℕ :=
  (plan.filter (fun e => e.2[pos]? == some r)).length

/-- The five experiment profiles: the configured plan without the extra
`"test"` profile. -/
def experiment_profiles : List (String × List Country) :=
  ACCOUNT_COUNTRY_ORDER.filter (fun e => e.1 != "test")

/-- C1: with equal severity weights and observed counts
{A:50, B:30, C:15, D:5}, the inference engine returns expected counts of 25
for every region, chi-square statistic exactly 46 and 3 degrees of freedom.
The rational arithmetic is exact, so the stated 1e-6 relative tolerance
holds a fortiori. -/
theorem c1_chi_square_uniform_weights :
    run_chi_square_analysis_with uniformScores obsC1 =
      Except.ok
        { observed := [(Country.Palestine, 50), (Country.Myanmar, 30),
                       (Country.Ukraine, 15), (Country.Mexico, 5)]
          expected := [(Country.Palestine, 25), (Country.Myanmar, 25),
                       (Country.Ukraine, 25), (Country.Mexico, 25)]
          chi2 := some 46
          df := 3 } := by
  norm_num [run_chi_square_analysis_with, uniformScores, obsC1, chiSqTerm, optSum]

/-- A non-finite term anywhere in the chi-square sum makes the whole
statistic non-finite. -/
theorem optSum_eq_none_of_mem {l : List (Option ℚ)} (h : none ∈ l) :
    optSum l = none := by
  induction l with
  | nil => simp at h
  | cons x xs ih =>
    rcases List.mem_cons.mp h with h2 | h2
    · rw [← h2]; simp [optSum]
    · cases x <;> simp [optSum, ih h2]

/-- C2 counterexample: called on an observed-count mapping whose total is
zero (all four tallies 0), `run_chi_square_analysis` does not fail loudly:
it returns a normal result dictionary whose chi-square value is the float
NaN produced by the 0/0 terms (modelled as `none`). -/
theorem c2_counterexample_zero_total_nan :
    run_chi_square_analysis (fun _ => 0) =
      Except.ok
        { observed := [(Country.Palestine, 0), (Country.Myanmar, 0),
                       (Country.Ukraine, 0), (Country.Mexico, 0)]
          expected := [(Country.Palestine, 0), (Country.Myanmar, 0),
                       (Country.Ukraine, 0), (Country.Mexico, 0)]
          chi2 := none
          df := 3 } := by
  norm_num [run_chi_square_analysis, run_chi_square_analysis_with,
    ACLED_SCORES, chiSqTerm, optSum]

/-- C2 amended: the no-data guard lives in the caller `run_analysis`,
which returns without computing whenever the conflict tally is zero; the
engine `run_chi_square_analysis` itself has no precondition check, and a
zero severity weight (with a non-zero weight total) makes it return a
result whose chi-square value is non-finite instead of an error. -/
theorem c2_amended_guards :
    (∀ data : List (String × List (Option Country)),
        nConflict (get_conflict_counts ((data.map Prod.snd).flatten)) = 0 →
        run_analysis data = none) ∧
    (∀ (scores : List (Country × ℚ)) (obs : Country → ℕ) (c : Country),
        (c, 0) ∈ scores → (scores.map Prod.snd).sum ≠ 0 →
        ∃ r, run_chi_square_analysis_with scores obs = Except.ok r ∧
          r.chi2 = none) := by
  constructor
  · intro data h
    unfold run_analysis
    split
    · rfl
    · simp [h]
  · intro scores obs c hmem hsum
    unfold run_chi_square_analysis_with
    rw [if_neg hsum]
    refine ⟨_, rfl, ?_⟩
    simp only
    apply optSum_eq_none_of_mem
    rw [List.map_map, List.zip_map', List.map_map]
    refine List.mem_map.mpr ⟨(c, 0), hmem, ?_⟩
    simp [chiSqTerm]

/-- Witness for `c2_amended_guards` at concrete inputs: a single profile
whose shorts carry no studied-region label makes `run_analysis` stop with
the no-data condition, and a weighting with a zero Palestine weight makes
the engine return a non-finite chi-square. -/
theorem c2_amended_guards_witness :
    run_analysis [("profile_1", [none, some Country.Brazil])] = none ∧
    ∃ r, run_chi_square_analysis_with
        [(Country.Palestine, 0), (Country.Myanmar, 1)] (fun _ => 3) =
        Except.ok r ∧ r.chi2 = none :=
  ⟨c2_amended_guards.1 [("profile_1", [none, some Country.Brazil])] (by decide),
   c2_amended_guards.2 [(Country.Palestine, 0), (Country.Myanmar, 1)]
     (fun _ => 3) Country.Palestine (by simp) (by norm_num)⟩

/-- Core tally computation: folding the counting step over the shorts,
starting from any values of the four tallies, adds to each tally exactly
the number of records labelled with its region. -/
theorem get_conflict_counts_go (shorts : List (Option Country)) :
    ∀ a b c d : ℕ,
      shorts.foldl
        (fun counts s =>
          match s with
          | some c2 => incrCount counts c2
          | none => counts)
        [(Country.Palestine, a), (Country.Myanmar, b),
         (Country.Ukraine, c), (Country.Mexico, d)] =
      [(Country.Palestine, a + shorts.count (some Country.Palestine)),
       (Country.Myanmar, b + shorts.count (some Country.Myanmar)),
       (Country.Ukraine, c + shorts.count (some Country.Ukraine)),
       (Country.Mexico, d + shorts.count (some Country.Mexico))] := by
  induction shorts with
  | nil => simp
  | cons s rest ih =>
    intro a b c d
    cases s with
    | none => simp [List.count_cons, ih]
    | some c2 =>
      cases c2 <;> simp [incrCount, List.count_cons, ih] <;> omega

/-- C10: the conflict tally feeding the chi-square test counts only the
four studied regions — each tally equals the number of records labelled
with that region, and a record labelled Brazil (a label the measurement
classifier can return) or carrying no label changes neither any per-region
count nor the observed total. -/
theorem c10_tally_counts_study_regions_only (shorts : List (Option Country)) :
    get_conflict_counts shorts =
      [(Country.Palestine, shorts.count (some Country.Palestine)),
       (Country.Myanmar, shorts.count (some Country.Myanmar)),
       (Country.Ukraine, shorts.count (some Country.Ukraine)),
       (Country.Mexico, shorts.count (some Country.Mexico))] ∧
    get_conflict_counts (shorts ++ [some Country.Brazil]) =
      get_conflict_counts shorts ∧
    get_conflict_counts (shorts ++ [none]) = get_conflict_counts shorts ∧
    nConflict (get_conflict_counts (shorts ++ [some Country.Brazil])) =
      nConflict (get_conflict_counts shorts) := by
  have char : ∀ l : List (Option Country),
      get_conflict_counts l =
        [(Country.Palestine, l.count (some Country.Palestine)),
         (Country.Myanmar, l.count (some Country.Myanmar)),
         (Country.Ukraine, l.count (some Country.Ukraine)),
         (Country.Mexico, l.count (some Country.Mexico))] := by
    intro l
    have h := get_conflict_counts_go l 0 0 0 0
    simpa [get_conflict_counts, ACLED_SCORES] using h
  have brazil : get_conflict_counts (shorts ++ [some Country.Brazil]) =
      get_conflict_counts shorts := by
    rw [char, char]
    simp [List.count_append]
  have nolabel : get_conflict_counts (shorts ++ [none]) =
      get_conflict_counts shorts := by
    rw [char, char]
    simp [List.count_append]
  exact ⟨char shorts, brazil, nolabel, by rw [brazil]⟩

/-- C5 counterexample: an empty classifier response does not yield
"not related"/"none" — both classifier wrappers raise
`Exception("No response from Gemini API")`, and no caller catches it, so
the exception aborts the item.  Shown for the empty string and for a
missing `response.text`. -/
theorem c5_counterexample_empty_response_raises :
    is_conflict_related (some "") = Except.error "No response from Gemini API" ∧
    is_conflict_related none = Except.error "No response from Gemini API" ∧
    classify_conflict_region (some "") = Except.error "No response from Gemini API" ∧
    classify_conflict_region none = Except.error "No response from Gemini API" :=
  ⟨rfl, rfl, rfl, rfl⟩

/-- C5 amended: a NON-EMPTY classifier response never raises, however
garbled — a non-"YES" response yields `false` (not related) and a
response outside the five region names yields `none` (no region); only an
empty or missing response raises, and that exception propagates. -/
theorem c5_amended_nonempty_response (t : String) (h : t ≠ "") :
    (is_conflict_related (some t)).isOk = true ∧
    (classify_conflict_region (some t)).isOk = true ∧
    (t.trim.toUpper ≠ "YES" → is_conflict_related (some t) = Except.ok false) ∧
    (conflictMap t.trim.toUpper = none →
      classify_conflict_region (some t) = Except.ok none) := by
  refine ⟨?_, ?_, ?_, ?_⟩
  · simp [is_conflict_related, h, Except.isOk, Except.toBool]
  · simp [classify_conflict_region, h, Except.isOk, Except.toBool]
  · intro hy
    simp [is_conflict_related, h, hy]
  · intro hm
    simp [classify_conflict_region, h, hm]

/-- Witness for `c5_amended_nonempty_response` at the non-parseable
response "MAYBE". -/
theorem c5_amended_nonempty_response_witness :
    (is_conflict_related (some "MAYBE")).isOk = true ∧
    (classify_conflict_region (some "MAYBE")).isOk = true ∧
    ("MAYBE".trim.toUpper ≠ "YES" →
      is_conflict_related (some "MAYBE") = Except.ok false) ∧
    (conflictMap "MAYBE".trim.toUpper = none →
      classify_conflict_region (some "MAYBE") = Except.ok none) :=
  c5_amended_nonempty_response "MAYBE" (by decide)

/-- C3 (code bug): a region with observed 36 and expected 25 has
standardized residual 11/5 = 2.2; `print_results` flags it `**`
(significant at α=0.01) because its test is `|resid| > 2`, although
2.2 < 2.58, contradicting the 2.58 threshold stated by the claim and by
the legend the same function prints.  The other parts of the claim hold:
2.2 > 1.96 so the region is α=0.05-significant, and a region with
observed = expected has residual 0 and is flagged neither significant nor
over- nor under-represented. -/
theorem c3_alpha01_flag_at_two :
    standardizedResidual 36 25 = 11 / 5 ∧
    residFlag (11 / 5) = "**" ∧
    ¬((11 / 5 : ℚ) > 2.58) ∧
    ((11 / 5 : ℚ) > 1.96) ∧
    standardizedResidual 25 25 = 0 ∧
    residFlag 0 = "" ∧
    overRepresented 0 = false ∧
    underRepresented 0 = false := by
  have h5 : Real.sqrt 25 = 5 := by
    rw [show (25 : ℝ) = 5 ^ 2 by norm_num, Real.sqrt_sq (by norm_num : (0 : ℝ) ≤ 5)]
  have habs : |(11 / 5 : ℚ)| = 11 / 5 := abs_of_pos (by norm_num)
  refine ⟨?_, ?_, ?_, ?_, ?_, ?_, ?_, ?_⟩
  · rw [standardizedResidual, h5]; norm_num
  · rw [residFlag, if_pos (by rw [habs]; norm_num)]
  · norm_num
  · norm_num
  · rw [standardizedResidual, h5]; norm_num
  · rw [residFlag, if_neg (by rw [abs_zero]; norm_num),
      if_neg (by rw [abs_zero]; norm_num)]
  · rw [overRepresented]; norm_num
  · rw [underRepresented]; norm_num

/-- C9 counterexample: across the configured set of profiles (which
includes the `"test"` profile, whose order duplicates `"profile_1"`),
Palestine appears at ordinal position 0 in TWO profiles, not exactly
once. -/
theorem c9_counterexample_test_profile :
    regionAtPosCount ACCOUNT_COUNTRY_ORDER 0 Country.Palestine = 2 := by
  decide

/-- C9 amended: restricted to the five experiment profiles
`profile_1 … profile_5` (dropping the extra `"test"` profile), the plan is
a Latin square — each region appears exactly once at each of the five
ordinal positions. -/
theorem c9_amended_latin_square :
    ∀ pos : ℕ, pos < 5 → ∀ r : Country,
      regionAtPosCount experiment_profiles pos r = 1 := by
  decide

/-- Witness for `c9_amended_latin_square` at position 0 and Palestine. -/
theorem c9_amended_latin_square_witness :
    0 < 5 ∧ regionAtPosCount experiment_profiles 0 Country.Palestine = 1 :=
  ⟨by decide, c9_amended_latin_square 0 (by decide) Country.Palestine⟩

/-- C8 (code bug): session ids use a 12-hour clock, so the lexicographic
filename order the session store uses is not chronological.  Two sessions
of the same profile and region on the same day, created at 09:00:00
(id `…_09:00:00AM`) and 13:00:00 (id `…_01:00:00PM`): the later file
sorts strictly BEFORE the earlier one, so the sorted list's last element
— what the latest-incomplete resume detection reads — is not the most
recent session. -/
theorem c8_session_sort_not_chronological :
    sessionFileName "profile_1" Country.Ukraine
        (strftimeSessionId 2025 1 1 13 0 0) <
      sessionFileName "profile_1" Country.Ukraine
        (strftimeSessionId 2025 1 1 9 0 0) ∧
    get_session_files_for_country
        [sessionFileName "profile_1" Country.Ukraine
           (strftimeSessionId 2025 1 1 9 0 0),
         sessionFileName "profile_1" Country.Ukraine
           (strftimeSessionId 2025 1 1 13 0 0)] =
      [sessionFileName "profile_1" Country.Ukraine
         (strftimeSessionId 2025 1 1 13 0 0),
       sessionFileName "profile_1" Country.Ukraine
         (strftimeSessionId 2025 1 1 9 0 0)] := by
  have h13 : sessionFileName "profile_1" Country.Ukraine
      (strftimeSessionId 2025 1 1 13 0 0) =
      "profile_1_Ukraine_2025-01-01_01:00:00PM.json" := rfl
  have h9 : sessionFileName "profile_1" Country.Ukraine
      (strftimeSessionId 2025 1 1 9 0 0) =
      "profile_1_Ukraine_2025-01-01_09:00:00AM.json" := rfl
  rw [h13, h9]
  have hle : ¬ ("profile_1_Ukraine_2025-01-01_09:00:00AM.json" : String) ≤
      "profile_1_Ukraine_2025-01-01_01:00:00PM.json" := by
    rw [String.le_iff_toList_le]
    decide
  constructor
  · rw [String.lt_iff_toList_lt]
    decide
  · rw [get_session_files_for_country]
    simp only [List.insertionSort, List.orderedInsert]
    rw [if_neg (by simpa using hle)]

/-- C4 counterexample: three measurement-scope session files of which the
middle one is truncated/invalid JSON.  `load_home_feed_data` does not skip
the bad file and continue — the parse error propagates and the whole load
raises, instead of returning the counts of the two valid files. -/
theorem c4_counterexample_home_loader_raises :
    load_home_feed_data
      [⟨"profile_1_home_2025-01-01_09:00:00AM",
        Except.ok [some Country.Palestine]⟩,
       ⟨"profile_1_home_2025-01-01_10:00:00AM", Except.error ()⟩,
       ⟨"profile_1_home_2025-01-01_11:00:00AM",
        Except.ok [(none : Option Country)]⟩] = Except.error () := by
  decide

/-- A file whose content fails to parse contributes nothing to the
training-data load: every branch of the loop body that reaches the
`json.load` hits the `except` clause and leaves the accumulator
unchanged. -/
theorem trainingLoadStep_error {α : Type} (acc : List ((String × String) × List α))
    (f : SessionFile α) (h : f.content.isOk = false) :
    trainingLoadStep acc f = acc := by
  unfold trainingLoadStep
  split
  · rfl
  · split
    · split
      · split
        · rename_i heq
          rw [heq] at h
          simp [Except.isOk, Except.toBool] at h
        · rfl
      · rfl
    · rfl

/-- C4 amended: the TRAINING-scope loader `load_all_training_data` is the
corruption-tolerant one — its result is computed from the parseable files
alone (deleting the malformed files changes nothing) and it never raises;
for both loaders an empty directory (no matching files) yields an empty
result rather than an error.  The measurement-scope loader, by contrast,
propagates a parse error (see the counterexample). -/
theorem c4_amended_loader_tolerance :
    (∀ (α : Type) (files : List (SessionFile α)),
        load_all_training_data files =
          load_all_training_data (files.filter (fun f => f.content.isOk))) ∧
    (∀ α : Type, load_all_training_data ([] : List (SessionFile α)) = []) ∧
    (∀ α : Type, load_home_feed_data ([] : List (SessionFile α)) = Except.ok []) := by
  refine ⟨?_, fun _ => rfl, fun _ => rfl⟩
  intro α files
  suffices h : ∀ (files : List (SessionFile α)) acc,
      List.foldl trainingLoadStep acc files =
        List.foldl trainingLoadStep acc (files.filter (fun f => f.content.isOk)) by
    exact h files []
  intro files
  induction files with
  | nil => intro acc; rfl
  | cons f rest ih =>
    intro acc
    rcases hc : f.content.isOk with hfalse | htrue
    · rw [List.filter_cons_of_neg (by simp [hc]), List.foldl_cons,
        trainingLoadStep_error acc f hc, ih]
    · rw [List.filter_cons_of_pos (by simp [hc]), List.foldl_cons,
        List.foldl_cons, ih]

/-- Unrolling the walker loop: starting at any cursor, `n` iterations
append the next `n` feed items in order. -/
theorem viewShortsGo_eq {α : Type} (feed : ℕ → α) :
    ∀ (n cursor : ℕ) (data : List α),
      viewShortsGo feed n cursor data =
        data ++ (List.range n).map (fun j => feed (cursor + j)) := by
  intro n
  induction n with
  | zero => intro cursor data; simp [viewShortsGo]
  | succ m ih =>
    intro cursor data
    rw [viewShortsGo, ih]
    have hshift : ∀ j : ℕ, cursor + 1 + j = cursor + (j + 1) := by omega
    simp [List.range_succ_eq_map, List.map_map, Function.comp, hshift]

/-- C6: a session interrupted after `k` of `target` records were persisted
and then resumed (the walker swipes past exactly `k` items before
extraction) produces the same final record sequence as an uninterrupted
session of length `target` over the same stable feed order — no record is
duplicated and none is skipped. -/
theorem c6_resume_correctness {α : Type} (feed : ℕ → α) (target k : ℕ)
    (hk : k < target) :
    run_capture_session feed (some (run_capture_session feed none k)) target =
      run_capture_session feed none target := by
  have hrun : ∀ m : ℕ, run_capture_session feed none m = (List.range m).map feed := by
    intro m
    simp [run_capture_session, view_shorts, viewShortsGo_eq]
  have hlen : (run_capture_session feed none k).length = k := by
    rw [hrun]; simp
  rw [run_capture_session, view_shorts, hlen, viewShortsGo_eq, hrun, hrun]
  rw [show target = k + (target - k) by omega, List.range_add]
  simp [List.map_map, Function.comp]

/-- Witness for `c6_resume_correctness`: a five-item session interrupted
after two persisted records. -/
theorem c6_resume_correctness_witness :
    2 < 5 ∧
    run_capture_session (fun n => n)
        (some (run_capture_session (fun n => n) none 2)) 5 =
      run_capture_session (fun n : ℕ => n) none 5 :=
  ⟨by decide, c6_resume_correctness (fun n => n) 5 2 (by decide)⟩

/-- A round over a fully satisfied state runs no session and leaves the
state untouched, whatever a session would have done. -/
theorem runRound_satisfied
    (sessionEffect : OrchestratorState → Country → OrchestratorState)
    (order : List Country) (st : OrchestratorState) (m : ℕ)
    (h : ∀ c ∈ order, m ≤ st.complete c ∧ st.hasIncomplete c = false) :
    runRound sessionEffect order st m = (st, 0) := by
  revert h
  induction order with
  | nil => intro _; rfl
  | cons c cs ih =>
    intro h
    have hc := h c (List.mem_cons_self c cs)
    show List.foldl _ _ (c :: cs) = (st, 0)
    rw [List.foldl_cons]
    show List.foldl _
      (if m ≤ st.complete c ∧ st.hasIncomplete c = false
       then ((st, 0) : OrchestratorState × ℕ)
       else (sessionEffect st c, 0 + 1)) cs = (st, 0)
    rw [if_pos hc]
    exact ih (fun c2 hm => h c2 (List.mem_cons_of_mem c hm))

/-- C7: running the training orchestrator on a fully satisfied plan (every
region of the order already has at least `rounds` complete sessions and no
incomplete session) performs zero capture sessions and leaves the session
store exactly as it was — so a second run in a row finds the same
satisfied state and again does nothing. -/
theorem c7_idempotent_reentry
    (sessionEffect : OrchestratorState → Country → OrchestratorState)
    (order : List Country) (st : OrchestratorState) (rounds : ℕ)
    (h : ∀ c ∈ order, rounds ≤ st.complete c ∧ st.hasIncomplete c = false) :
    run_full_experiment sessionEffect order st rounds = (st, 0) := by
  induction rounds with
  | zero => rfl
  | succ m ih =>
    have hm : ∀ c ∈ order, m ≤ st.complete c ∧ st.hasIncomplete c = false :=
      fun c hc => ⟨Nat.le_of_succ_le (h c hc).1, (h c hc).2⟩
    rw [run_full_experiment, List.range_succ, List.foldl_append]
    have hbase : List.foldl
        (fun acc r =>
          let next := runRound sessionEffect order acc.1 (r + 1)
          (next.1, acc.2 + next.2))
        ((st, 0) : OrchestratorState × ℕ) (List.range m) = (st, 0) := ih hm
    rw [hbase, List.foldl_cons, List.foldl_nil]
    show (let next := runRound sessionEffect order st (m + 1)
          ((next.1, 0 + next.2) : OrchestratorState × ℕ)) = (st, 0)
    rw [runRound_satisfied sessionEffect order st (m + 1)
      (fun c hc => ⟨(h c hc).1, (h c hc).2⟩)]
    rfl

/-- Witness for `c7_idempotent_reentry`: profile_1's country order with
five complete sessions everywhere and nothing incomplete — zero sessions
run. -/
theorem c7_idempotent_reentry_witness :
    (∀ c ∈ [Country.Palestine, Country.Myanmar, Country.Ukraine,
            Country.Mexico, Country.Brazil],
        5 ≤ (5 : ℕ) ∧ false = false) ∧
    run_full_experiment successfulSessionEffect
        [Country.Palestine, Country.Myanmar, Country.Ukraine,
         Country.Mexico, Country.Brazil]
        ⟨fun _ => 5, fun _ => false⟩ 5 =
      (⟨fun _ => 5, fun _ => false⟩, 0) :=
  ⟨by decide,
   c7_idempotent_reentry successfulSessionEffect
     [Country.Palestine, Country.Myanmar, Country.Ukraine,
      Country.Mexico, Country.Brazil]
     ⟨fun _ => 5, fun _ => false⟩ 5 (by intro c _; exact ⟨le_refl 5, rfl⟩)⟩
